import Mathlib

/-!
Verification of the client-side logic of the Credit-Card-Fraud-Detection
dashboard (React SPA over a FastAPI backend).

Each definition below is a shallow embedding of a function or effect from the
TypeScript client.  JavaScript numbers are modelled as `ℚ` (for API floats)
or `Int` (for values that the code only ever produces and compares as
integers, such as `Math.round` results); JavaScript truthiness is made
explicit at each use site (`none`/`some ""`/`some 0` are the falsy cases of
an optional string or number).  Locale-dependent display formatting
(`toLocaleString`, `toLocaleDateString`) is not modelled: such fields are
carried through verbatim.
-/

namespace FraudClient

/-- JavaScript `Math.round x` = the floor of `x + 1/2` (half rounds toward
positive infinity). -/
def jsRound (q : ℚ) : Int := Int.floor (q + 1/2)

/-- The three transaction display states used by the client
(`"fraudulent" | "legitimate" | "pending"`). -/
inductive TxStatus where
  | fraudulent
  | legitimate
  | pending
deriving DecidableEq, Repr

/-! Transactions page (`mapTransactions`) -/

/-- A transaction row as returned by the transactions list API.  Optional
fields are those the client guards with `??` or truthiness checks.  A
`fraud_score` of `none` models both a missing and a `null` score. -/
structure ApiTransaction where
  id : String
  transaction_date : String
  card_id : Option String
  amount : Option ℚ
  merchant_name : Option String
  location : Option String
  fraud_score : Option ℚ
  is_fraud : Bool
deriving DecidableEq, Repr

structure TransactionListApiResponse where
  transactions : List ApiTransaction
deriving DecidableEq, Repr

/-- The table row type consumed by `TransactionsTable`. -/
structure TableTransaction where
  id : String
  date : String
  cardNumber : String
  amount : ℚ
  merchant : String
  location : String
  riskScore : Int
  status : TxStatus
deriving DecidableEq, Repr

/-- `s.slice (-n)` on a JavaScript string: the last `n` characters
(the whole string when it is shorter than `n`). -/
def sliceLast (n : Nat) (s : String) : String :=
  String.mk (s.data.drop (s.data.length - n))

/-- `s.slice (0, n)` on a JavaScript string: the first `n` characters. -/
def sliceFirst (n : Nat) (s : String) : String :=
  String.mk (s.data.take n)

/-- `s.toUpperCase()`. -/
def toUpperStr (s : String) : String := String.mk (s.data.map Char.toUpper)

/-- `txn.fraud_score ? Math.round(txn.fraud_score * 100) : 0` — the falsy
scores (missing, `null`, `0`) give `0`. -/
def riskScoreOf (fs : Option ℚ) : Int :=
  match fs with
  | none => 0
  | some q => if q = 0 then 0 else jsRound (q * 100)

/-- `txn.card_id ? txn.card_id.slice(-4) : "0000"` (an empty string is
falsy). -/
def cardSuffixOf (cid : Option String) : String :=
  match cid with
  | none => "0000"
  | some s => if s = "" then "0000" else sliceLast 4 s

/-- One element of `mapTransactions` from the Transactions page.  The
`date` field keeps the raw `transaction_date` (the code applies
locale formatting only). -/
def mapTransaction (txn : ApiTransaction) : TableTransaction :=
  { id := txn.id
    date := txn.transaction_date
    cardNumber := "**** **** **** " ++ cardSuffixOf txn.card_id
    amount := txn.amount.getD 0
    merchant := txn.merchant_name.getD "Unknown Merchant"
    location := txn.location.getD "Unknown"
    riskScore := riskScoreOf txn.fraud_score
    status :=
      if txn.is_fraud then TxStatus.fraudulent
      else if riskScoreOf txn.fraud_score > 60 then TxStatus.pending
      else TxStatus.legitimate }

/-- `mapTransactions` — `[]` for a missing response, otherwise the row-wise
map. -/
def mapTransactions (data : Option TransactionListApiResponse) :
    List TableTransaction :=
  match data with
  | none => []
  | some d => d.transactions.map mapTransaction

/-! Risk levels: table badge vs Transactions page filter -/

inductive RiskLevel where
  | high
  | medium
  | low
deriving DecidableEq, Repr

/-- `getRiskLevel` from `TransactionsTable`. -/
def getRiskLevel (score : Int) : RiskLevel :=
  if score ≥ 70 then RiskLevel.high
  else if score ≥ 40 then RiskLevel.medium
  else RiskLevel.low

/-- The `riskMap` intervals of the Transactions page filter. -/
def riskMap (level : RiskLevel) : Int × Int :=
  match level with
  | RiskLevel.high => (70, 100)
  | RiskLevel.medium => (40, 69)
  | RiskLevel.low => (0, 39)

/-- The risk-level branch of `filteredTransactions`:
`filtered.filter(tx => tx.riskScore >= min && tx.riskScore <= max)`. -/
def riskLevelFilter (level : RiskLevel) (txs : List TableTransaction) :
    List TableTransaction :=
  txs.filter fun tx =>
    decide ((riskMap level).1 ≤ tx.riskScore) &&
    decide (tx.riskScore ≤ (riskMap level).2)

theorem mapTransaction_riskScore (txn : ApiTransaction) :
    (mapTransaction txn).riskScore = riskScoreOf txn.fraud_score := rfl

theorem mapTransaction_status (txn : ApiTransaction) :
    (mapTransaction txn).status =
      if txn.is_fraud then TxStatus.fraudulent
      else if riskScoreOf txn.fraud_score > 60 then TxStatus.pending
      else TxStatus.legitimate := rfl

/-- C1: for every transaction row returned by the list API, the UI status is
`fraudulent` iff `is_fraud` is set; otherwise `pending` iff the derived risk
score `round(fraud_score * 100)` exceeds 60; otherwise `legitimate`; and a
missing, null or zero `fraud_score` derives risk score 0. -/
theorem c1_status_classification (d : TransactionListApiResponse)
    (txn : ApiTransaction) :
    mapTransactions (some d) = d.transactions.map mapTransaction ∧
    ((mapTransaction txn).status = TxStatus.fraudulent ↔ txn.is_fraud = true) ∧
    (txn.is_fraud = false →
      ((mapTransaction txn).status = TxStatus.pending ↔
        60 < (mapTransaction txn).riskScore)) ∧
    (txn.is_fraud = false → (mapTransaction txn).riskScore ≤ 60 →
      (mapTransaction txn).status = TxStatus.legitimate) ∧
    ((txn.fraud_score = none ∨ txn.fraud_score = some 0) →
      (mapTransaction txn).riskScore = 0) := by
  refine ⟨rfl, ?_, ?_, ?_, ?_⟩
  · rw [mapTransaction_status]
    cases h : txn.is_fraud <;> simp <;> split <;> simp_all
  · intro h
    rw [mapTransaction_status, mapTransaction_riskScore, h]
    simp only [Bool.false_eq_true, if_false, gt_iff_lt]
    split <;> rename_i hgt <;> simp_all
  · intro h hle
    rw [mapTransaction_riskScore] at hle
    rw [mapTransaction_status, h]
    simp only [Bool.false_eq_true, if_false, gt_iff_lt]
    rw [if_neg (by omega)]
  · rintro (h | h) <;> simp [mapTransaction_riskScore, riskScoreOf, h]

def txC1fraud : ApiTransaction :=
  { id := "tx-1", transaction_date := "2024-01-01T00:00:00Z"
    card_id := some "4111111111111111", amount := some 250
    merchant_name := some "Shop", location := some "Mumbai"
    fraud_score := some 0, is_fraud := true }

/-- Witness for C1 at a concrete transaction: the flagged row is shown as
fraudulent, and its zero score derives risk score 0. -/
theorem c1_status_classification_witness :
    (mapTransaction txC1fraud).status = TxStatus.fraudulent ∧
    (mapTransaction txC1fraud).riskScore = 0 :=
  ⟨((c1_status_classification ⟨[txC1fraud]⟩ txC1fraud).2.1).mpr rfl,
   (c1_status_classification ⟨[txC1fraud]⟩ txC1fraud).2.2.2.2 (Or.inr rfl)⟩

/-- C2: for risk scores in `[0, 100]`, keeping a transaction under the
filter interval of level `r` agrees exactly with the badge classifier
assigning level `r`. -/
theorem c2_filter_matches_badge (level : RiskLevel)
    (txs : List TableTransaction) (tx : TableTransaction)
    (h0 : 0 ≤ tx.riskScore) (h100 : tx.riskScore ≤ 100) :
    tx ∈ riskLevelFilter level txs ↔
      (tx ∈ txs ∧ getRiskLevel tx.riskScore = level) := by
  rw [riskLevelFilter, List.mem_filter]
  refine and_congr_right fun _ => ?_
  rw [Bool.and_eq_true, decide_eq_true_eq, decide_eq_true_eq]
  cases level <;> simp only [riskMap, getRiskLevel] <;>
    split_ifs <;> simp_all <;> omega

def txC2 : TableTransaction :=
  { id := "tx-2", date := "2024-01-02", cardNumber := "**** **** **** 1111"
    amount := 100, merchant := "Shop", location := "Pune"
    riskScore := 55, status := TxStatus.legitimate }

/-- Witness for C2: a score-55 transaction is kept by the `medium` filter,
matching its `medium` badge. -/
theorem c2_filter_matches_badge_witness :
    txC2 ∈ riskLevelFilter RiskLevel.medium [txC2] :=
  (c2_filter_matches_badge RiskLevel.medium [txC2] txC2 (by decide)
    (by decide)).mpr ⟨by decide, by decide⟩

/-! TransactionsTable pagination -/

/-- `itemsPerPage = 10`. -/
def itemsPerPage : Nat := 10

/-- `totalPages = Math.ceil(transactions.length / itemsPerPage)`. -/
def totalPages (n : Nat) : Nat := (n + itemsPerPage - 1) / itemsPerPage

/-- `startIndex = (currentPage - 1) * itemsPerPage`.  The page number is an
`Int` because the next-page handler can drive it below 1 (see the
counterexample below). -/
def startIndex (p : Int) : Int := (p - 1) * (itemsPerPage : Int)

/-- `endIndex = startIndex + itemsPerPage`. -/
def endIndex (p : Int) : Int := startIndex p + (itemsPerPage : Int)

/-- Clamp one index argument of JavaScript `Array.prototype.slice`:
negative indices count from the end of the array. -/
def jsSliceIndex (len : Nat) (i : Int) : Nat :=
  if i < 0 then ((len : Int) + i).toNat else min i.toNat len

/-- JavaScript `xs.slice(start, stop)`. -/
def jsSlice {α : Type} (xs : List α) (start stop : Int) : List α :=
  (xs.take (jsSliceIndex xs.length stop)).drop (jsSliceIndex xs.length start)

/-- `currentTransactions = transactions.slice(startIndex, endIndex)`. -/
def currentTransactions (txs : List TableTransaction) (p : Int) :
    List TableTransaction :=
  jsSlice txs (startIndex p) (endIndex p)

/-- The Previous button: `setCurrentPage(p => Math.max(1, p - 1))`. -/
def prevClick (p : Int) : Int := max 1 (p - 1)

/-- The Next button: `setCurrentPage(p => Math.min(totalPages, p + 1))`. -/
def nextClick (n : Nat) (p : Int) : Int := min ((totalPages n : Nat) : Int) (p + 1)

/-- The pages reachable from the initial `useState(1)` by clicking the
Previous/Next buttons while they are enabled (Previous is disabled at page 1,
Next at page `totalPages`), over a fixed list of `n` transactions. -/
inductive PageReachable (n : Nat) : Int → Prop where
  | init : PageReachable n 1
  | prev (p : Int) (hp : PageReachable n p) (hne : p ≠ 1) :
      PageReachable n (prevClick p)
  | next (p : Int) (hp : PageReachable n p)
      (hne : p ≠ ((totalPages n : Nat) : Int)) :
      PageReachable n (nextClick n p)

/-- C3 counterexample: with an empty transaction list `totalPages = 0`, the
Next button is enabled at the initial page 1 (since `1 ≠ 0`), and clicking it
drives the page to `min 0 2 = 0`, where the slice start index is the negative
`(0 - 1) * 10 = -10` and the page is outside the claimed range
`[1, ceil(0/10)]`. -/
theorem c3_pagination_counterexample :
    PageReachable 0 0 ∧ startIndex 0 = -10 ∧ startIndex 0 < 0 ∧
    ¬ (1 ≤ (0 : Int) ∧ (0 : Int) ≤ ((totalPages 0 : Nat) : Int)) := by
  refine ⟨?_, by decide, by decide, by decide⟩
  have h := PageReachable.next (n := 0) 1 PageReachable.init (by decide)
  have h0 : nextClick 0 1 = 0 := by decide
  rwa [h0] at h

theorem lt_one_le_totalPages (n : Nat) (hn : 1 ≤ n) :
    1 ≤ ((totalPages n : Nat) : Int) := by
  simp only [totalPages, itemsPerPage]
  omega

theorem pageReachable_bounds (n : Nat) (hn : 1 ≤ n) (p : Int)
    (hp : PageReachable n p) :
    1 ≤ p ∧ p ≤ ((totalPages n : Nat) : Int) := by
  induction hp with
  | init => exact ⟨le_refl 1, lt_one_le_totalPages n hn⟩
  | prev q hq hne ih =>
      simp only [prevClick]
      omega
  | next q hq hne ih =>
      simp only [nextClick]
      omega

theorem take_min_length {α : Type} (l : List α) (n : Nat) :
    l.take (min n l.length) = l.take n := by
  rcases le_total n l.length with h | h
  · rw [min_eq_left h]
  · rw [min_eq_right h, List.take_length, List.take_of_length_le h]

theorem drop_min_length {α : Type} (l : List α) (n : Nat) :
    l.drop (min n l.length) = l.drop n := by
  rcases le_total n l.length with h | h
  · rw [min_eq_left h]
  · rw [min_eq_right h, List.drop_length, List.drop_eq_nil_of_le h]

theorem jsSlice_of_nonneg {α : Type} (xs : List α) (s : Int) (hs : 0 ≤ s)
    (k : Nat) :
    jsSlice xs s (s + (k : Int)) = (xs.drop s.toNat).take k := by
  unfold jsSlice jsSliceIndex
  rw [if_neg (by omega), if_neg (by omega)]
  have h1 : (s + (k : Int)).toNat = s.toNat + k := by omega
  rw [h1, take_min_length]
  rcases le_total s.toNat xs.length with h | h
  · rw [min_eq_left h, List.drop_take, Nat.add_sub_cancel_left]
  · rw [min_eq_right h,
      List.drop_eq_nil_of_le (by rw [List.length_take]; omega),
      List.drop_eq_nil_of_le h, List.take_nil]

/-- C3 amended: the claim holds for every nonempty transaction list — every
button-reachable page stays in `[1, ceil(n/10)]`, the slice start index is
never negative, and page `p` displays exactly the ten-element window starting
at `(p-1)*10` — but for the empty list the Next button can drive the page to
0, where the start index is `-10` (the displayed slice is then still empty,
yet the claimed range/start-index invariant fails, see the
counterexample). -/
theorem c3_pagination_amended (n : Nat) (hn : 1 ≤ n) (p : Int)
    (hp : PageReachable n p) (txs : List TableTransaction)
    (hlen : txs.length = n) :
    (1 ≤ p ∧ p ≤ ((totalPages n : Nat) : Int)) ∧
    0 ≤ startIndex p ∧
    currentTransactions txs p = (txs.drop ((p - 1).toNat * 10)).take 10 ∧
    (currentTransactions txs p).length ≤ 10 := by
  obtain ⟨hp1, hp2⟩ := pageReachable_bounds n hn p hp
  have hs : 0 ≤ startIndex p := by
    simp only [startIndex, itemsPerPage]
    omega
  have hslice : currentTransactions txs p =
      (txs.drop ((p - 1).toNat * 10)).take 10 := by
    unfold currentTransactions endIndex
    rw [show ((itemsPerPage : Nat) : Int) = ((10 : Nat) : Int) from rfl,
      jsSlice_of_nonneg txs (startIndex p) hs 10]
    have : (startIndex p).toNat = (p - 1).toNat * 10 := by
      simp only [startIndex, itemsPerPage]
      omega
    rw [this]
  refine ⟨⟨hp1, hp2⟩, hs, hslice, ?_⟩
  rw [hslice]
  exact (List.length_take 10 _).trans_le (min_le_left _ _)

def txC3 : TableTransaction :=
  { id := "tx-3", date := "2024-01-03", cardNumber := "**** **** **** 2222"
    amount := 10, merchant := "Cafe", location := "Delhi"
    riskScore := 5, status := TxStatus.legitimate }

/-- Witness for the amended C3 on a one-element list at the initial page. -/
theorem c3_pagination_amended_witness :
    (1 ≤ (1 : Int) ∧ (1 : Int) ≤ ((totalPages 1 : Nat) : Int)) ∧
    0 ≤ startIndex 1 ∧
    currentTransactions [txC3] 1 =
      ([txC3].drop (((1 : Int) - 1).toNat * 10)).take 10 ∧
    (currentTransactions [txC3] 1).length ≤ 10 :=
  c3_pagination_amended 1 (le_refl 1) 1 PageReachable.init [txC3] rfl

/-! Login page OAuth-callback effect -/

/-- Browser `localStorage`, most recent write first. -/
abbrev Storage := List (String × String)

/-- `localStorage.setItem(k, v)`. -/
def setItem (st : Storage) (k v : String) : Storage := (k, v) :: st

/-- `localStorage.getItem(k)` (`none` is JavaScript `null`). -/
def getItem (st : Storage) (k : String) : Option String :=
  (st.find? fun kv => kv.fst == k).map fun kv => kv.snd

/-- `URLSearchParams.get(k)` over the parsed URL-fragment parameters. -/
def getParam (params : List (String × String)) (k : String) : Option String :=
  (params.find? fun kv => kv.fst == k).map fun kv => kv.snd

/-- JavaScript truthiness of a nullable string: `null` and `""` are falsy. -/
def truthyStr : Option String → Bool
  | none => false
  | some s => s != ""

/-- The OAuth-callback `useEffect` of the Login page, applied to the parsed
fragment parameters and the current local storage.  Navigation, the
`auth-changed` event and the history rewrite are display-side effects with no
bearing on storage and are not modelled. -/
def loginOauthEffect (fragment : List (String × String)) (st : Storage) :
    Storage :=
  let access := getParam fragment "access_token"
  let refresh := getParam fragment "refresh_token"
  let emailFromOAuth := getParam fragment "email"
  let nameFromOAuth : String :=
    match getParam fragment "name" with
    | some s => if s != "" then s else "User"
    | none => "User"
  if truthyStr access && truthyStr refresh then
    let st1 := setItem st "access_token" (access.getD "")
    let st2 := setItem st1 "refresh_token" (refresh.getD "")
    let st3 :=
      if truthyStr emailFromOAuth then
        setItem st2 "user_email" (emailFromOAuth.getD "")
      else st2
    if nameFromOAuth != "" then setItem st3 "user_name" nameFromOAuth else st3
  else st

/-- C4: the OAuth callback stores the token pair atomically — if either
`access_token` or `refresh_token` is absent from the fragment, local storage
is left completely unchanged (so tokens are persisted only when both are
present). -/
theorem c4_oauth_tokens_all_or_nothing (fragment : List (String × String))
    (st : Storage)
    (h : getParam fragment "access_token" = none ∨
         getParam fragment "refresh_token" = none) :
    loginOauthEffect fragment st = st := by
  rcases h with h | h <;>
    simp [loginOauthEffect, h, truthyStr]

/-- Witness for C4: a fragment carrying only an access token writes
nothing. -/
theorem c4_oauth_tokens_all_or_nothing_witness :
    loginOauthEffect [("access_token", "tok-a")]
      [("user_email", "a@b.c")] = [("user_email", "a@b.c")] :=
  c4_oauth_tokens_all_or_nothing [("access_token", "tok-a")]
    [("user_email", "a@b.c")] (Or.inr rfl)

/-! History page (`historyData`) -/

/-- A prediction record as returned by the prediction-history API. -/
structure PredictionResponse where
  prediction_id : String
  transaction_id : String
  timestamp : String
  is_fraud : Bool
  fraud_probability : ℚ
  confidence_score : ℚ
  processing_time_ms : Int
  risk_level : String
  model_version : String
deriving DecidableEq, Repr

structure PredictionHistory where
  predictions : List PredictionResponse
  has_more : Bool
deriving DecidableEq, Repr

/-- A row of the History table. -/
structure HistoryRecord where
  timestamp : String
  transactionId : String
  cardNumber : String
  amount : ℚ
  result : TxStatus
  confidence : ℚ
  processingTime : Int
  prediction : PredictionResponse
deriving DecidableEq, Repr

/-- One element of `historyData` on the History page.  The `timestamp` keeps
the raw API timestamp (the code applies locale formatting only). -/
def mapPrediction (pred : PredictionResponse) : HistoryRecord :=
  { timestamp := pred.timestamp
    transactionId := toUpperStr (sliceFirst 8 pred.transaction_id)
    cardNumber := "**** " ++ sliceLast 4 pred.transaction_id
    amount := 0
    result :=
      if pred.is_fraud then TxStatus.fraudulent
      else if pred.fraud_probability > 1/2 then TxStatus.pending
      else TxStatus.legitimate
    confidence := pred.confidence_score * 100
    processingTime := pred.processing_time_ms
    prediction := pred }

/-- `historyData` — `[]` for a missing response. -/
def historyData (data : Option PredictionHistory) : List HistoryRecord :=
  match data with
  | none => []
  | some d => d.predictions.map mapPrediction

theorem mapPrediction_result (pred : PredictionResponse) :
    (mapPrediction pred).result =
      if pred.is_fraud then TxStatus.fraudulent
      else if pred.fraud_probability > 1/2 then TxStatus.pending
      else TxStatus.legitimate := rfl

/-- C5: every history row shows `fraudulent` iff `is_fraud`, else `pending`
iff `fraud_probability > 0.5`, else `legitimate`, and its displayed
confidence is `confidence_score * 100`. -/
theorem c5_history_result (data : PredictionHistory)
    (pred : PredictionResponse) :
    historyData (some data) = data.predictions.map mapPrediction ∧
    ((mapPrediction pred).result = TxStatus.fraudulent ↔
      pred.is_fraud = true) ∧
    (pred.is_fraud = false →
      ((mapPrediction pred).result = TxStatus.pending ↔
        pred.fraud_probability > 1/2)) ∧
    (pred.is_fraud = false → ¬ pred.fraud_probability > 1/2 →
      (mapPrediction pred).result = TxStatus.legitimate) ∧
    (mapPrediction pred).confidence = pred.confidence_score * 100 := by
  refine ⟨rfl, ?_, ?_, ?_, rfl⟩
  · rw [mapPrediction_result]
    cases h : pred.is_fraud <;> simp <;> split <;> simp_all
  · intro h
    rw [mapPrediction_result, h]
    simp only [Bool.false_eq_true, if_false]
    split <;> rename_i hgt <;> simp_all
  · intro h hle
    rw [mapPrediction_result, h]
    simp only [Bool.false_eq_true, if_false]
    rw [if_neg hle]

def predC5 : PredictionResponse :=
  { prediction_id := "p-1", transaction_id := "abcdef1234567890"
    timestamp := "2024-02-01T10:00:00Z", is_fraud := false
    fraud_probability := 0, confidence_score := 1
    processing_time_ms := 12, risk_level := "low", model_version := "v1" }

theorem predC5_prob_not_pending : ¬ predC5.fraud_probability > 1/2 := by
  norm_num [predC5]

/-- Witness for C5 at a concrete prediction: not flagged and with zero fraud
probability, the row shows `legitimate`, and its confidence equals
`confidence_score * 100`. -/
theorem c5_history_result_witness :
    (mapPrediction predC5).result = TxStatus.legitimate ∧
    (mapPrediction predC5).confidence = predC5.confidence_score * 100 :=
  ⟨(c5_history_result ⟨[predC5], false⟩ predC5).2.2.2.1 rfl
      predC5_prob_not_pending,
   (c5_history_result ⟨[predC5], false⟩ predC5).2.2.2.2⟩

/-! Analytics page charts -/

/-- A fraud-trends API point.  `date` is the millisecond epoch value that
`new Date(trend.date).getTime()` yields for the point. -/
structure TrendPoint where
  date : Int
  total_transactions : Int
  fraud_transactions : Int
  fraud_rate : ℚ
deriving DecidableEq, Repr

/-- One point of the "Fraud Trends Over Time" chart.  `date` keeps the sort
key (the code renders it with locale formatting only). -/
structure TrendChartPoint where
  date : Int
  fraud : Int
  legitimate : Int
deriving DecidableEq, Repr

/-- The per-point transform inside `fraudTrendsData`:
`legitimate = total_transactions - fraud_transactions`. -/
def trendChartPoint (t : TrendPoint) : TrendChartPoint :=
  { date := t.date
    fraud := t.fraud_transactions
    legitimate := t.total_transactions - t.fraud_transactions }

/-- The comparator order of `sort((a, b) => dateA - dateB)`. -/
def trendLE (a b : TrendPoint) : Prop := a.date ≤ b.date

instance : DecidableRel trendLE :=
  fun a b => inferInstanceAs (Decidable (a.date ≤ b.date))

instance : IsTotal TrendPoint trendLE := ⟨fun a b => le_total a.date b.date⟩

instance : IsTrans TrendPoint trendLE := ⟨fun _ _ _ h1 h2 => le_trans h1 h2⟩

/-- The ascending date sort of the trends array.  JavaScript
`Array.prototype.sort` with the numeric comparator `a - b` produces some
sorted permutation of its input; it is modelled by insertion sort. -/
def sortTrends (trends : List TrendPoint) : List TrendPoint :=
  List.insertionSort trendLE trends

/-- `fraudTrendsData`: sort a copy of the trends ascending by date, then map
each point to its chart form. -/
def fraudTrendsData (trends : List TrendPoint) : List TrendChartPoint :=
  (sortTrends trends).map trendChartPoint

/-- The full `trendsData?.trends.slice().sort(...).map(...)` computation,
returning both the chart data and the trends binding it leaves behind:
`slice()` copies the array, so the sort mutates only the copy. -/
def fraudTrendsCompute (trends : List TrendPoint) :
    List TrendChartPoint × List TrendPoint :=
  (fraudTrendsData trends, trends)

/-- A merchant-category analysis entry from the API. -/
structure MerchantCategoryPoint where
  category : String
  transaction_count : Int
  fraud_count : Int
deriving DecidableEq, Repr

/-- One bar of the "Merchant Category Analysis" chart. -/
structure MerchantChartPoint where
  category : String
  fraud : Int
  legitimate : Int
deriving DecidableEq, Repr

/-- The per-entry transform inside `merchantChartData`:
`legitimate = transaction_count - fraud_count`. -/
def merchantChartPoint (m : MerchantCategoryPoint) : MerchantChartPoint :=
  { category := m.category
    fraud := m.fraud_count
    legitimate := m.transaction_count - m.fraud_count }

/-- `merchantChartData`. -/
def merchantChartData (ms : List MerchantCategoryPoint) :
    List MerchantChartPoint :=
  ms.map merchantChartPoint

/-- C6: every charted trend point and merchant bar splits its source total
exactly — charted fraud plus charted legitimate equals the reported total
(`total_transactions` for trends, `transaction_count` for merchant
categories). -/
theorem c6_chart_counts_sum (trends : List TrendPoint)
    (ms : List MerchantCategoryPoint) :
    (∀ p ∈ fraudTrendsData trends, ∃ t ∈ trends,
      p = trendChartPoint t ∧ p.fraud + p.legitimate = t.total_transactions) ∧
    (∀ q ∈ merchantChartData ms, ∃ m ∈ ms,
      q = merchantChartPoint m ∧ q.fraud + q.legitimate = m.transaction_count) := by
  constructor
  · intro p hp
    rw [fraudTrendsData, List.mem_map] at hp
    obtain ⟨t, ht, rfl⟩ := hp
    rw [sortTrends, List.mem_insertionSort] at ht
    exact ⟨t, ht, rfl, by simp [trendChartPoint]⟩
  · intro q hq
    rw [merchantChartData, List.mem_map] at hq
    obtain ⟨m, hm, rfl⟩ := hq
    exact ⟨m, hm, rfl, by simp [merchantChartPoint]⟩

def trendC6 : TrendPoint :=
  { date := 1704067200000, total_transactions := 40, fraud_transactions := 7
    fraud_rate := 0 }

def merchC6 : MerchantCategoryPoint :=
  { category := "online", transaction_count := 25, fraud_count := 4 }

/-- Witness for C6 on concrete one-point inputs. -/
theorem c6_chart_counts_sum_witness :
    (∃ t ∈ [trendC6], trendChartPoint trendC6 = trendChartPoint t ∧
      (trendChartPoint trendC6).fraud + (trendChartPoint trendC6).legitimate =
        t.total_transactions) ∧
    (∃ m ∈ [merchC6], merchantChartPoint merchC6 = merchantChartPoint m ∧
      (merchantChartPoint merchC6).fraud +
        (merchantChartPoint merchC6).legitimate = m.transaction_count) :=
  ⟨(c6_chart_counts_sum [trendC6] [merchC6]).1 (trendChartPoint trendC6)
      (by decide),
   (c6_chart_counts_sum [trendC6] [merchC6]).2 (merchantChartPoint merchC6)
      (by decide)⟩

/-- C7: the "Fraud Trends Over Time" chart data is sorted in non-decreasing
date order for every input order of the API points, and the sort works on a
copy — the original trends binding is returned unchanged. -/
theorem c7_trends_sorted_copy (trends : List TrendPoint) :
    (fraudTrendsCompute trends).2 = trends ∧
    (fraudTrendsCompute trends).1 = (sortTrends trends).map trendChartPoint ∧
    (sortTrends trends).Pairwise trendLE ∧
    (sortTrends trends).Perm trends ∧
    (fraudTrendsCompute trends).1.Pairwise fun a b => a.date ≤ b.date := by
  refine ⟨rfl, rfl, ?_, ?_, ?_⟩
  · exact List.sorted_insertionSort trendLE trends
  · exact List.perm_insertionSort trendLE trends
  · rw [fraudTrendsCompute, fraudTrendsData, List.pairwise_map]
    exact List.sorted_insertionSort trendLE trends

/-! Settings page save/load -/

/-- The five pieces of React state on the Settings page. -/
structure SettingsState where
  currency : String
  showFeatureImportance : Bool
  historyItems : ℚ
  autoRefresh : Bool
  refreshSec : ℚ
deriving DecidableEq, Repr

/-- The object shape written by `save` under the `settings` key
(`{ ui: { currency, showFeatureImportance }, history: { itemsPerPage,
autoRefresh, refreshSec } }`).  JSON serialisation of this fixed
string/boolean/number shape is faithful, so storage holds the record
itself. -/
structure StoredSettings where
  uiCurrency : String
  uiShowFeatureImportance : Bool
  historyItemsPerPage : ℚ
  historyAutoRefresh : Bool
  historyRefreshSec : ℚ
deriving DecidableEq, Repr

/-- The `useState` defaults of the Settings page. -/
def defaultSettings : SettingsState :=
  { currency := "INR", showFeatureImportance := true, historyItems := 20
    autoRefresh := true, refreshSec := 60 }

/-- `save`. -/
def saveSettings (s : SettingsState) : StoredSettings :=
  { uiCurrency := s.currency
    uiShowFeatureImportance := s.showFeatureImportance
    historyItemsPerPage := s.historyItems
    historyAutoRefresh := s.autoRefresh
    historyRefreshSec := s.refreshSec }

/-- The load effect: each field overwrites the current state only when its
guard passes — truthiness for the currency string and the two numbers
(`""` and `0` are falsy), a `typeof boolean` check for the two booleans
(always true on a stored boolean).  A missing `settings` key parses as `{}`
and sets nothing. -/
def loadSettings (stored : Option StoredSettings) (current : SettingsState) :
    SettingsState :=
  match stored with
  | none => current
  | some s =>
    { currency := if s.uiCurrency ≠ "" then s.uiCurrency else current.currency
      showFeatureImportance := s.uiShowFeatureImportance
      historyItems :=
        if s.historyItemsPerPage ≠ 0 then s.historyItemsPerPage
        else current.historyItems
      autoRefresh := s.historyAutoRefresh
      refreshSec :=
        if s.historyRefreshSec ≠ 0 then s.historyRefreshSec
        else current.refreshSec }

def settingsC8bad : SettingsState :=
  { currency := "", showFeatureImportance := true, historyItems := 20
    autoRefresh := true, refreshSec := 60 }

/-- C8 counterexample: saving an empty currency string and loading it back
does not restore it — the load guard `if (s?.ui?.currency)` is falsy on
`""`, so the default `"INR"` survives and the round trip fails. -/
theorem c8_roundtrip_counterexample :
    loadSettings (some (saveSettings settingsC8bad)) defaultSettings
      ≠ settingsC8bad ∧
    (loadSettings (some (saveSettings settingsC8bad))
      defaultSettings).currency = "INR" := by
  constructor <;> decide

/-- C8 amended: the save/load round trip restores all five values for every
NON-EMPTY currency string (together with any boolean flags and positive
`itemsPerPage`/`refreshSec`); the empty currency string is the one input the
counterexample excludes. -/
theorem c8_roundtrip_amended (s : SettingsState) (current : SettingsState)
    (hc : s.currency ≠ "") (hi : 0 < s.historyItems)
    (hr : 0 < s.refreshSec) :
    loadSettings (some (saveSettings s)) current = s := by
  obtain ⟨c, fi, n, ar, rs⟩ := s
  simp only [loadSettings, saveSettings] at *
  rw [if_pos hc, if_pos (ne_of_gt hi), if_pos (ne_of_gt hr)]

/-- Witness for the amended C8 at concrete settings values. -/
theorem c8_roundtrip_amended_witness :
    loadSettings
      (some (saveSettings
        { currency := "USD", showFeatureImportance := false
          historyItems := 10, autoRefresh := false, refreshSec := 30 }))
      defaultSettings =
      { currency := "USD", showFeatureImportance := false
        historyItems := 10, autoRefresh := false, refreshSec := 30 } :=
  c8_roundtrip_amended _ defaultSettings (by decide) (by decide) (by decide)

/-! History CSV export (`handleExport`) -/

/-- The display string of a `TxStatus` (the TypeScript union value that
`record.result` holds). -/
def statusLabel : TxStatus → String
  | TxStatus.fraudulent => "fraudulent"
  | TxStatus.legitimate => "legitimate"
  | TxStatus.pending => "pending"

/-- JavaScript `x.toFixed(1)`: round to the nearest tenth, ties toward
positive infinity, and print with exactly one decimal digit. -/
def toFixed1 (q : ℚ) : String :=
  let n := jsRound (q * 10)
  if n < 0 then "-" ++ toString (-n / 10) ++ "." ++ toString (-n % 10)
  else toString (n / 10) ++ "." ++ toString (n % 10)

/-- JavaScript `Array.prototype.join(sep)` — no quoting or escaping of the
elements. -/
def jsJoin (sep : String) : List String → String
  | [] => ""
  | [a] => a
  | a :: b :: t => a ++ sep ++ jsJoin sep (b :: t)

/-- The header row of the export. -/
def exportHeader : List String :=
  ["Timestamp", "Transaction ID", "Card", "Result", "Confidence",
   "Processing Time"]

/-- The six fields of one exported record, in display order. -/
def exportFields (r : HistoryRecord) : List String :=
  [r.timestamp, r.transactionId, r.cardNumber, statusLabel r.result,
   toFixed1 r.confidence, toString r.processingTime]

/-- `handleExport`: build the row list, join each row with commas, join the
rows with newlines. -/
def handleExportCsv (records : List HistoryRecord) : String :=
  jsJoin "\n" ((exportHeader :: records.map exportFields).map (jsJoin ","))

/-- Occurrences of a character in a string. -/
def countChar (c : Char) (s : String) : Nat := s.data.count c

theorem countChar_append (c : Char) (s t : String) :
    countChar c (s ++ t) = countChar c s + countChar c t := by
  simp [countChar, String.data_append, List.count_append]

theorem countChar_jsJoin (c : Char) (sep : String) :
    ∀ l : List String, l ≠ [] →
      countChar c (jsJoin sep l) =
        (l.map (countChar c)).sum + (l.length - 1) * countChar c sep
  | [], h => absurd rfl h
  | [a], _ => by simp [jsJoin]
  | a :: b :: t, _ => by
    rw [show jsJoin sep (a :: b :: t) = a ++ sep ++ jsJoin sep (b :: t)
        from rfl,
      countChar_append, countChar_append,
      countChar_jsJoin c sep (b :: t) (by simp)]
    simp only [List.map_cons, List.sum_cons, List.length_cons,
      Nat.add_sub_cancel]
    ring

theorem countChar_jsJoin_zero (c : Char) (sep : String) (l : List String)
    (hl : l ≠ []) (hsep : countChar c sep = 0)
    (h : ∀ f ∈ l, countChar c f = 0) :
    countChar c (jsJoin sep l) = 0 := by
  rw [countChar_jsJoin c sep l hl, hsep, Nat.mul_zero, Nat.add_zero]
  exact List.sum_eq_zero (by simpa using h)

def predC9 : PredictionResponse :=
  { prediction_id := "p-9", transaction_id := "abcdef1234567890"
    timestamp := "2024-02-01T10:00:00Z", is_fraud := false
    fraud_probability := 0, confidence_score := 1
    processing_time_ms := 12, risk_level := "low", model_version := "v1" }

/-- A history record whose timestamp contains a comma, as
`toLocaleString()` timestamps routinely do. -/
def recordC9comma : HistoryRecord :=
  { timestamp := "01/02/2024, 10:00:00 AM", transactionId := "ABCDEF12"
    cardNumber := "**** 7890", amount := 0, result := TxStatus.legitimate
    confidence := 95, processingTime := 12, prediction := predC9 }

theorem toFixed1_ninety_five : toFixed1 (95 : ℚ) = "95.0" := by
  have h : jsRound ((95 : ℚ) * 10) = 950 := by
    rw [jsRound]
    norm_num
  rw [toFixed1]
  rw [h]
  decide

theorem exportFields_recordC9comma :
    exportFields recordC9comma =
      ["01/02/2024, 10:00:00 AM", "ABCDEF12", "**** 7890", "legitimate",
       "95.0", "12"] := by
  rw [exportFields]
  rw [show recordC9comma.confidence = (95 : ℚ) from rfl, toFixed1_ninety_five]
  decide

theorem c9_comma_line_count :
    countChar ',' (jsJoin "," (exportFields recordC9comma)) = 6 := by
  rw [exportFields_recordC9comma]
  decide

/-- C9: the export is raw joining — with comma- and newline-free fields the
output has exactly one header line followed by one line per record (newline
count `n`), each record line joins its six fields with five commas and no
quoting; and a record whose timestamp itself contains a comma (as locale
timestamps do) yields a six-comma line, breaking the column structure. -/
theorem c9_csv_structure (records : List HistoryRecord)
    (hclean : ∀ r ∈ records, ∀ f ∈ exportFields r, countChar '\n' f = 0) :
    countChar '\n' (handleExportCsv records) = records.length ∧
    (∀ r ∈ records, (exportFields r).length = 6) ∧
    (∀ r ∈ records, (∀ f ∈ exportFields r, countChar ',' f = 0) →
      countChar ',' (jsJoin "," (exportFields r)) = 5) ∧
    countChar ',' (jsJoin "," (exportFields recordC9comma)) = 6 := by
  refine ⟨?_, fun r _ => rfl, ?_, c9_comma_line_count⟩
  · rw [handleExportCsv,
      countChar_jsJoin '\n' "\n" _ (by simp)]
    have hlines :
        ∀ s ∈ (exportHeader :: records.map exportFields).map (jsJoin ","),
          countChar '\n' s = 0 := by
      intro s hs
      rw [List.mem_map] at hs
      obtain ⟨row, hrow, rfl⟩ := hs
      rcases List.mem_cons.mp hrow with rfl | hrow
      · decide
      · rw [List.mem_map] at hrow
        obtain ⟨r, hr, rfl⟩ := hrow
        exact countChar_jsJoin_zero '\n' "," _ (by simp [exportFields])
          (by decide) (hclean r hr)
    rw [List.sum_eq_zero (by simpa using hlines)]
    simp [show countChar '\n' "\n" = 1 from by decide]
  · intro r _ hfields
    rw [countChar_jsJoin ',' "," _ (by simp [exportFields])]
    rw [List.sum_eq_zero (by simpa using hfields)]
    simp [exportFields, show countChar ',' "," = 1 from by decide]

def recordC9clean : HistoryRecord :=
  { timestamp := "2024-02-01T10:00:00Z", transactionId := "ABCDEF12"
    cardNumber := "**** 7890", amount := 0, result := TxStatus.legitimate
    confidence := 95, processingTime := 12, prediction := predC9 }

theorem exportFields_recordC9clean :
    exportFields recordC9clean =
      ["2024-02-01T10:00:00Z", "ABCDEF12", "**** 7890", "legitimate",
       "95.0", "12"] := by
  rw [exportFields]
  rw [show recordC9clean.confidence = (95 : ℚ) from rfl, toFixed1_ninety_five]
  decide

theorem recordC9clean_newline_free :
    ∀ f ∈ exportFields recordC9clean, countChar '\n' f = 0 := by
  rw [exportFields_recordC9clean]
  decide

theorem recordC9clean_comma_free :
    ∀ f ∈ exportFields recordC9clean, countChar ',' f = 0 := by
  rw [exportFields_recordC9clean]
  decide

/-- Witness for C9 on a concrete one-record export with clean fields: one
newline (two lines) and five commas (six columns) in the record line. -/
theorem c9_csv_structure_witness :
    countChar '\n' (handleExportCsv [recordC9clean]) = 1 ∧
    countChar ',' (jsJoin "," (exportFields recordC9clean)) = 5 :=
  have h := c9_csv_structure [recordC9clean]
    (fun r hr => by
      rw [List.mem_singleton] at hr
      subst hr
      exact recordC9clean_newline_free)
  ⟨h.1, h.2.2.1 recordC9clean (List.mem_singleton.mpr rfl)
    recordC9clean_comma_free⟩

/-! Auto-seeding of demo data (Transactions and Dashboard effects) -/

/-- The per-user session state the seeding effects touch: whether the
`seeded_demo_<email>` marker is set in `sessionStorage`, and how many times
`seedTransactions` has been invoked in this session. -/
structure SessionState where
  markerSet : Bool
  seedCalls : Nat
deriving DecidableEq, Repr

/-- One run of a seeding `useEffect`, with the inputs it reads.  `seedFails`
records whether the `seedTransactions` call would throw — the `finally`
branch sets the marker either way. -/
inductive SeedEvent where
  | txPage (isLoading isFetching isError : Bool) (count : Nat)
      (seedFails : Bool)
  | dashPage (metricsLoaded : Bool) (totalTx : Nat) (seedFails : Bool)

/-- One sequential run of either auto-seed effect.  The Transactions page
returns early while loading/fetching/on error, when the list is nonempty, or
when the marker is set; the Dashboard waits for metrics and seeds only when
the transaction total is zero and the marker is unset.  In both, a seed
invocation counts and the marker is set even when the call fails. -/
def stepSeed (st : SessionState) (e : SeedEvent) : SessionState :=
  match e with
  | SeedEvent.txPage isLoading isFetching isError count _seedFails =>
    if isLoading || isFetching || isError then st
    else if count > 0 then st
    else if st.markerSet then st
    else { markerSet := true, seedCalls := st.seedCalls + 1 }
  | SeedEvent.dashPage metricsLoaded totalTx _seedFails =>
    if !metricsLoaded then st
    else if totalTx = 0 && !st.markerSet then
      { markerSet := true, seedCalls := st.seedCalls + 1 }
    else st

/-- A fresh browser session: marker unset, no seed calls yet. -/
def freshSession : SessionState := { markerSet := false, seedCalls := 0 }

/-- All effect runs of one session, in order. -/
def runSeedEffects (events : List SeedEvent) : SessionState :=
  events.foldl stepSeed freshSession

theorem stepSeed_invariant (st : SessionState) (e : SeedEvent)
    (h1 : st.seedCalls ≤ 1) (h2 : st.markerSet = false → st.seedCalls = 0) :
    (stepSeed st e).seedCalls ≤ 1 ∧
    ((stepSeed st e).markerSet = false → (stepSeed st e).seedCalls = 0) := by
  cases e <;> simp only [stepSeed] <;> split_ifs <;>
    simp_all

theorem foldl_stepSeed_invariant (events : List SeedEvent) :
    ∀ st : SessionState, st.seedCalls ≤ 1 →
      (st.markerSet = false → st.seedCalls = 0) →
      (events.foldl stepSeed st).seedCalls ≤ 1 := by
  induction events with
  | nil => intro st h1 _; simpa using h1
  | cons e t ih =>
      intro st h1 h2
      obtain ⟨h1s, h2s⟩ := stepSeed_invariant st e h1 h2
      simpa using ih (stepSeed st e) h1s h2s

/-- C10: over every sequence of sequential runs of the two auto-seed
effects in one session (for the fixed stored user email), the seed
operation is invoked at most once — including runs where the seed call
fails, because the marker is set in the `finally` branch. -/
theorem c10_seed_at_most_once (events : List SeedEvent) :
    (runSeedEffects events).seedCalls ≤ 1 :=
  foldl_stepSeed_invariant events freshSession (by decide) (fun _ => rfl)

end FraudClient
